import Mathlib

/-!
Verification of the RACV insurance MCP app, centred on the rego-mode
web scraping core (scrapeRacvQuote in racv-scraper.ts), the shared
browser resource (getBrowser / closeBrowser), the get_motor_quote tool
handler (registerGetMotorQuote) and the get_coverage_details tool
handler (registerGetCoverage).

Modelling conventions for the shallow embedding:
- JavaScript strings are Lean Strings; the character-level primitives
  (toUpperCase, trim, includes) are re-implemented over List Char so
  that they evaluate in the kernel.
- JavaScript numbers are modelled as rationals; Math.round x is
  modelled as the floor of x + 1/2, which agrees with Math.round on
  all non-negative finite inputs.
- Browser and network effects are modelled by an explicit environment
  (ScrapeEnv) that fixes the outcome of every observation the code
  makes of the page: which fields became visible, which regular
  expressions matched and with which first-match amount, which error
  texts were on the page, and whether an unexpected exception was
  raised at a given stage boundary.  The control flow itself is
  translated statement by statement from the source.
- The trace of resource events (context/page open and close, lookup
  attempts, back-to-form recovery clicks and re-submissions) is
  returned next to the result so that temporal claims can be stated.
-/

/-! ## JavaScript string primitives over List Char -/

/-- ASCII whitespace, as trimmed by JavaScript trim() on the labels at hand. -/
def isJsSpace (c : Char) : Bool := c == ' ' || c == '\t' || c == '\n' || c == '\r'

/-- Model of JavaScript toUpperCase() on the character list of a string. -/
def upperJs (l : List Char) : List Char := l.map Char.toUpper

/-- Model of JavaScript trim(): drop leading and trailing whitespace. -/
def trimJs (l : List Char) : List Char :=
  (((l.dropWhile isJsSpace).reverse.dropWhile isJsSpace)).reverse

/-- Model of JavaScript hay.includes(needle): needle occurs contiguously in hay. -/
def containsJs : List Char → List Char → Bool
  | [], needle => needle.isPrefixOf ([] : List Char)
  | h :: t, needle => needle.isPrefixOf (h :: t) || containsJs t needle

theorem containsJs_iff (hay needle : List Char) :
    containsJs hay needle = true ↔ needle <:+: hay := by
  induction hay with
  | nil => simp [containsJs, List.isPrefixOf_iff_prefix]
  | cons h t ih =>
    simp [containsJs, List.isPrefixOf_iff_prefix, List.infix_cons_iff, ih]

theorem trimJs_infix_self (l : List Char) : trimJs l <:+: l := by
  have h1 : l.dropWhile isJsSpace <:+ l := List.dropWhile_suffix isJsSpace
  have h2 : (l.dropWhile isJsSpace).reverse.dropWhile isJsSpace <:+
      (l.dropWhile isJsSpace).reverse := List.dropWhile_suffix isJsSpace
  have h3 : trimJs l <+: l.dropWhile isJsSpace := by
    rw [← List.reverse_suffix]
    simpa [trimJs] using h2
  exact h3.isInfix.trans h1.isInfix

theorem containsJs_of_trim (l needle : List Char)
    (h : containsJs (trimJs l) needle = true) : containsJs l needle = true := by
  rw [containsJs_iff] at h ⊢
  exact h.trans (trimJs_infix_self l)

/-! ## Browser Resource (getBrowser / closeBrowser in racv-scraper.ts)

The module-level variable `browser` is modelled as an explicit
`Option BrowserInst` handle threaded through the two functions; a fresh
launch is modelled by the `freshLaunch` argument standing for the
instance chromium.launch would produce. -/

structure BrowserInst where
  id : Nat
  connected : Bool
deriving DecidableEq, Repr

/-- getBrowser: if the held instance is absent or not connected, launch
and store a new one; otherwise return the held one.  The returned pair
is (returned browser, new value of the module-level handle). -/
def getBrowser (held : Option BrowserInst) (freshLaunch : BrowserInst) :
    BrowserInst × Option BrowserInst :=
  match held with
  | some b => if b.connected then (b, some b) else (freshLaunch, some freshLaunch)
  | none => (freshLaunch, some freshLaunch)

/-- closeBrowser: close the held instance when there is one and reset
the handle to null.  The returned pair is (new value of the handle,
whether browser.close() was invoked). -/
def closeBrowser (held : Option BrowserInst) : Option BrowserInst × Bool :=
  match held with
  | some _ => (none, true)
  | none => (none, false)

/-! ## Coverage data and the get_coverage_details handler (get-coverage.ts) -/

structure CoverageInfo where
  title : String
  details : List String
deriving DecidableEq, Repr

/-- The coverageData record of get-coverage.ts, as an association list
keyed by the same strings. -/
def coverageData : List (String × CoverageInfo) :=
  [ ("standard_inclusions",
    { title := "Standard Coverage Inclusions",
      details :=
      [ "Accident damage — cover for damage to your car caused by a collision or accident, whether you\x27re at fault or not",
        "Fire and theft — protection if your car is stolen or damaged by fire",
        "Storm, flood and hail damage — cover for weather-related damage including storms, floods and hail",
        "Windscreen and window glass — repair or replacement of damaged windscreens and windows with no excess for repairs",
        "Malicious damage and vandalism — cover if your car is intentionally damaged by someone else",
        "Personal items — up to $1,000 cover for personal belongings stolen from or damaged in your car",
        "Emergency accommodation and transport — up to $1,500 for accommodation and transport if your car is undriveable more than 100km from home",
        "New car replacement — if your car is less than 2 years old and is written off or stolen, we\x27ll replace it with a new one of the same make and model",
        "Lifetime repair guarantee — repairs carried out by RACV approved repairers are guaranteed for the life of your ownership",
        "Towing — reasonable costs to tow your car to the nearest repairer or safe location after an insured incident",
        "Third party property damage — cover for damage you cause to other people\x27s property with your car, up to $20 million",
        "24/7 claims support — lodge and manage your claim anytime via phone or online" ] }),
    ("optional_extras",
    { title := "Optional Extras (available at additional cost)",
      details :=
      [ "Hire car after an incident — a hire car for up to 30 days while your car is being repaired or if it\x27s stolen",
        "Hire car after not-at-fault incident — a hire car when the incident wasn\x27t your fault, no additional cost",
        "Roadside assistance — RACV\x27s roadside assistance bundle included with your policy",
        "Agreed value — lock in the payout amount for your car at the start of the policy, rather than market value at claim time",
        "Reduced excess for named drivers — lower your excess by nominating experienced drivers",
        "Trailer and caravan cover — extend your cover to include damage to a trailer or caravan while attached to your car",
        "Tools of trade — increased cover (up to $5,000) for tools and equipment carried in your vehicle for work" ] }),
    ("exclusions",
    { title := "Key Exclusions",
      details :=
      [ "Mechanical or electrical failure or breakdown (not caused by an insured incident)",
        "Wear and tear, rust, corrosion, or gradual deterioration",
        "Damage from using the car for ride-share, hire, or racing/speed testing",
        "Intentional damage caused by you or someone acting with your consent",
        "Driving under the influence of alcohol or drugs",
        "Driving without a valid licence for the class of vehicle",
        "Pre-existing damage not disclosed at the time of purchase",
        "Damage caused while the car is being used for an unlawful purpose",
        "Tyre damage from road punctures, cuts, or bursts (unless part of a larger insured incident)",
        "Diminution in value — any reduction in your car\x27s market value after repair",
        "Refer to the full PDS at racv.com.au/pds for all exclusions and conditions" ] }),
    ("excess_options",
    { title := "Excess Options",
      details :=
      [ "Standard excess ($650) — the default excess amount applicable to most claims",
        "Voluntary excess ($800) — choose a slightly higher excess to reduce your premium by approximately 3%",
        "Higher voluntary excess ($1,000) — reduce your premium by approximately 7% with a $1,000 excess",
        "Maximum voluntary excess ($1,500) — the highest savings on your premium, approximately 12% reduction",
        "Age excess — an additional excess of $400-$900 applies for drivers under 25 years of age",
        "Inexperienced driver excess — an additional $400 excess applies if the driver has held their licence for less than 2 years",
        "Note: excesses are cumulative — e.g. a young inexperienced driver may pay standard + age + inexperienced driver excess" ] }),
    ("claims_process",
    { title := "How to Make a Claim",
      details :=
      [ "1. Report the incident — call RACV on 13 19 03 (24/7) or lodge online at racv.com.au/claims",
        "2. Provide details — you\x27ll need your policy number, details of the incident, photos if possible, and a police report number (if applicable)",
        "3. Assessment — RACV will assess your claim and may arrange an assessor to inspect the damage",
        "4. Repair — choose an RACV approved repairer for lifetime repair guarantee, or nominate your own repairer",
        "5. Excess payment — pay your applicable excess directly to the repairer when collecting your vehicle",
        "6. Settlement — if your car is a total loss, RACV will pay the agreed or market value minus your excess",
        "Average claim processing time: 1-3 business days for straightforward claims",
        "Urgent assistance: RACV can arrange towing and emergency support immediately after an incident" ] }) ]

/-- Lookup into the coverageData record, as coverageData[params.coverage_area]. -/
def coverageLookup (k : String) : Option CoverageInfo :=
  (coverageData.find? (fun p => p.1 == k)).map (fun p => p.2)

/-- The five values of the zod enum for coverage_area; zod rejects any
other input before the handler runs. -/
inductive CoverageArea
  | standard_inclusions
  | optional_extras
  | exclusions
  | excess_options
  | claims_process
deriving DecidableEq, Repr

def areaKey : CoverageArea → String
  | .standard_inclusions => "standard_inclusions"
  | .optional_extras => "optional_extras"
  | .exclusions => "exclusions"
  | .excess_options => "excess_options"
  | .claims_process => "claims_process"

structure CoverageStructured where
  area : String
  title : String
  details : List String
deriving DecidableEq, Repr

/-- The handler response: the not-found branch carries only a text
content block; the normal branch carries the text and the structured
content. -/
inductive CoverageOut
  | notFound (text : String)
  | ok (text : String) (structured : CoverageStructured)
deriving DecidableEq, Repr

/-- The text block built by the handler: header naming the title, a
blank line, one bullet per detail, a blank line and the two footers. -/
def renderCoverageText (info : CoverageInfo) : String :=
  String.intercalate "\n"
    ([ "RACV Comprehensive Motor Insurance — " ++ info.title, "" ]
      ++ info.details.map (fun d => "• " ++ d)
      ++ [ "",
        "For full details, refer to the Product Disclosure Statement (PDS) at racv.com.au/pds",
        "This information is general in nature and does not constitute personal financial advice." ])

/-- The get_coverage_details handler body for an enum-validated input. -/
def getCoverageDetails (a : CoverageArea) : CoverageOut :=
  match coverageLookup (areaKey a) with
  | none => .notFound "Coverage area not found. Available areas: standard_inclusions, optional_extras, exclusions, excess_options, claims_process"
  | some info =>
    .ok (renderCoverageText info)
      { area := areaKey a, title := info.title, details := info.details }

/-! ## Vehicle Resolver fallback: manual option selection (racv-scraper.ts)

When the UI reports a vehicle-not-found message while a well-formed
backend vehicle record was captured, the resolver drives the manual
year/make/model/body-type dropdowns.  For each field it scans the
available option texts with find and selects the first hit, guarded by
the hit being a non-blank string. -/

structure VehicleInfo where
  year : String
  make : String
  model : String
  bodyType : String
  variant : String
  description : String
deriving DecidableEq, Repr

/-- The make/model option predicate:
o.toUpperCase().includes(record.toUpperCase())
|| record.toUpperCase().includes(o.toUpperCase().trim()). -/
def fallbackOptionPred (record opt : String) : Bool :=
  containsJs (upperJs opt.data) (upperJs record.data)
  || containsJs (upperJs record.data) (trimJs (upperJs opt.data))

/-- The body-type option predicate, which precomputes
upper := o.toUpperCase().trim() and tests
upper.includes(record.toUpperCase()) || record.toUpperCase().includes(upper). -/
def fallbackBodyPred (record opt : String) : Bool :=
  containsJs (trimJs (upperJs opt.data)) (upperJs record.data)
  || containsJs (upperJs record.data) (trimJs (upperJs opt.data))

/-- One field selection: options.find(pred) followed by the
`if (found && found.trim())` guard around selectOption. Returns the
option text passed to selectOption, or none when nothing is selected. -/
def selectMatchingOption (pred : String → Bool) (options : List String) :
    Option String :=
  match options.find? pred with
  | some o => if o.data ≠ [] ∧ trimJs o.data ≠ [] then some o else none
  | none => none

/-- The matching criterion exactly as the specification words it:
case-insensitive substring containment in either direction, with no
whitespace trimming on either side. -/
def specEitherWayMatch (record opt : String) : Bool :=
  containsJs (upperJs record.data) (upperJs opt.data)
  || containsJs (upperJs opt.data) (upperJs record.data)

/-! ## Extraction Engine (step 4 of scrapeRacvQuote in racv-scraper.ts)

The regular-expression primitives are abstracted by their outcome on
the final page text: each of the four labelled premium patterns is
represented by its first-match amount (none when it does not match),
and the global currency scan by the list of all amounts in page order.
Everything downstream of those primitives is translated statement by
statement. -/

structure ExtractEnv where
  annualMarkerMatch : Option ℚ
  annualLabelMatch : Option ℚ
  monthlyMarkerMatch : Option ℚ
  monthlyLabelMatch : Option ℚ
  amounts : List ℚ
  errorTexts : List String
deriving DecidableEq, Repr

/-- JavaScript truthiness of a number-or-undefined: undefined and 0 are
falsy, any other amount is truthy. -/
def jsTruthy : Option ℚ → Bool
  | none => false
  | some q => decide (q ≠ 0)

/-- The pattern loop of the extraction step: the four premPatterns are
tried in source order and every match overwrites the amount of its
category, so for each category the last matching pattern is the one
retained.  Pattern order in the source: annual period-marker, annual
label, monthly period-marker, monthly label. -/
def applyPremPatterns (e : ExtractEnv) : Option ℚ × Option ℚ :=
  let annual0 : Option ℚ := none
  let monthly0 : Option ℚ := none
  let annual1 := match e.annualMarkerMatch with | some v => some v | none => annual0
  let annual2 := match e.annualLabelMatch with | some v => some v | none => annual1
  let monthly1 := match e.monthlyMarkerMatch with | some v => some v | none => monthly0
  let monthly2 := match e.monthlyLabelMatch with | some v => some v | none => monthly1
  (annual2, monthly2)

/-- The known fixed excess tiers scanned for by the fallback. -/
def fixedExcessTiers : List ℚ := [650, 800, 1000, 1500]

structure Premiums where
  annual : Option ℚ
  monthly : Option ℚ
  excess : Option ℚ
deriving DecidableEq, Repr

/-- Premium extraction: pattern loop first; then, only when both
category amounts are still falsy, the range fallback scans all page
amounts, taking the first amount in 300..8000 as annual, the first in
25..<300 as monthly and the first equal to a fixed excess tier as the
excess. -/
def extractPremiums (e : ExtractEnv) : Premiums :=
  let a := (applyPremPatterns e).1
  let m := (applyPremPatterns e).2
  if jsTruthy a = false ∧ jsTruthy m = false then
    let annualCandidates := e.amounts.filter (fun n => decide (300 ≤ n) && decide (n ≤ 8000))
    let monthlyCandidates := e.amounts.filter (fun n => decide (25 ≤ n) && decide (n < 300))
    let excessCandidates := e.amounts.filter (fun n => decide (n ∈ fixedExcessTiers))
    { annual := match annualCandidates.head? with | some v => some v | none => a
      monthly := match monthlyCandidates.head? with | some v => some v | none => m
      excess := excessCandidates.head? }
  else
    { annual := a, monthly := m, excess := none }

/-- The extraction rule order exactly as the specification words it:
the FIRST matching pattern wins for each category, and the fallback
runs only when no pattern at all resolved either category. -/
def extractPremiumsSpecFirstWins (e : ExtractEnv) : Premiums :=
  let a := match e.annualMarkerMatch with | some v => some v | none => e.annualLabelMatch
  let m := match e.monthlyMarkerMatch with | some v => some v | none => e.monthlyLabelMatch
  if a = none ∧ m = none then
    { annual := (e.amounts.filter (fun n => decide (300 ≤ n) && decide (n ≤ 8000))).head?
      monthly := (e.amounts.filter (fun n => decide (25 ≤ n) && decide (n < 300))).head?
      excess := (e.amounts.filter (fun n => decide (n ∈ fixedExcessTiers))).head? }
  else
    { annual := a, monthly := m, excess := none }

/-- The amended extraction rule order: the LAST matching pattern wins
for each category (label patterns override period-marker patterns),
and the fallback runs exactly when neither category holds a nonzero
amount after the pattern loop, keeping the pattern value when the
corresponding candidate list is empty. -/
def extractPremiumsSpecLastWins (e : ExtractEnv) : Premiums :=
  let a := match e.annualLabelMatch with | some v => some v | none => e.annualMarkerMatch
  let m := match e.monthlyLabelMatch with | some v => some v | none => e.monthlyMarkerMatch
  if jsTruthy a = false ∧ jsTruthy m = false then
    { annual := match (e.amounts.filter (fun n => decide (300 ≤ n) && decide (n ≤ 8000))).head? with
        | some v => some v | none => a
      monthly := match (e.amounts.filter (fun n => decide (25 ≤ n) && decide (n < 300))).head? with
        | some v => some v | none => m
      excess := (e.amounts.filter (fun n => decide (n ∈ fixedExcessTiers))).head? }
  else
    { annual := a, monthly := m, excess := none }

/-! ## The rego-mode scrapeRacvQuote flow (racv-scraper.ts) -/

inductive Gender
  | male
  | female
deriving DecidableEq, Repr

structure RacvQuoteInput where
  rego : String
  address : String
  driver_age : Nat
  driver_gender : Gender
  licence_age : Nat
  claims_last_5_years : Nat
  is_racv_member : Option Bool := none
  under_finance : Option Bool := none
  purpose : Option String := none
deriving DecidableEq, Repr

/-- The RacvQuoteResult interface; absent optional fields are none.
raw_amounts keeps the page currency amounts in page order, modelled by
their numeric value. -/
structure RacvQuoteResult where
  success : Bool
  vehicle_description : Option String := none
  annual_premium : Option ℚ := none
  monthly_premium : Option ℚ := none
  excess_amount : Option ℚ := none
  raw_amounts : Option (List ℚ) := none
  screenshot_path : Option String := none
  error : Option String := none
  step_reached : Option String := none
deriving DecidableEq, Repr

/-- Resource and recovery events emitted by the flow, in order. -/
inductive ScrapeEv
  | openContext
  | openPage
  | closePage
  | closeContext
  | lookupAttempt
  | backToForm
  | resubmit
  | waitQuote
deriving DecidableEq, Repr

/-- Stage boundaries at which an unexpected exception may be raised;
the catch block of scrapeRacvQuote handles all of them alike. -/
inductive FaultPoint
  | getBrowserCall
  | newContext
  | newPage
  | navigate
  | regoLookup
  | carDetails
  | aboutYou
  | quoteWait
  | extract
deriving DecidableEq, Repr

/-- Page observations made during one rego-lookup attempt. -/
structure AttemptEnv where
  addressFieldVisible : Bool
  carMatch : Option String
  headingMatch : Option String
  notFoundMsg : Bool
  captured : Option VehicleInfo
  manualAddressField : Bool
  manualVariantHeading : Option String
deriving DecidableEq, Repr

/-- One attempt of the rego-lookup loop: the poll loop first watches
for the address field (vehicle description from the body-text match,
else the captured record, else the literal), then for a year+make
heading, then for the could-not-find message; on not-found with a
captured record the manual fallback runs and confirms either via the
address field (captured description) or a variant heading, which
breaks only when non-blank.  Returns (confirmed, description). -/
def attemptOutcome (a : AttemptEnv) : Bool × String :=
  if a.addressFieldVisible then
    match a.carMatch with
    | some d => (true, d)
    | none =>
      match a.captured with
      | some cv => (true, cv.description)
      | none => (true, "Vehicle found")
  else
    match a.headingMatch with
    | some h => (true, h)
    | none =>
      if a.notFoundMsg then
        match a.captured with
        | some cv =>
          if a.manualAddressField then (true, cv.description)
          else
            match a.manualVariantHeading with
            | some v => (decide (v ≠ ""), v)
            | none => (false, "")
        | none => (false, "")
      else (false, "")

/-- Observations of one iteration of the quote-wait loop. -/
structure QuoteIterEnv where
  quoteAppears : Bool
  systemError : Bool
  backVisible : Bool
  retryVisible : Bool
deriving DecidableEq, Repr

/-- The whole environment of one scrapeRacvQuote call. -/
structure ScrapeEnv where
  fault : Option FaultPoint
  faultMsg : String
  attempt1 : AttemptEnv
  attempt2 : AttemptEnv
  attempt3 : AttemptEnv
  addressErrorTexts : List String
  quoteIter1 : QuoteIterEnv
  quoteIter2 : QuoteIterEnv
  extractEnv : ExtractEnv
deriving DecidableEq, Repr

/-- The for-loop over at most 3 rego-lookup attempts: break on the
first confirmed attempt.  Returns the confirmed vehicle description
("" when none) and the number of attempts performed. -/
def lookupLoop (env : ScrapeEnv) : String × Nat :=
  if (attemptOutcome env.attempt1).1 then ((attemptOutcome env.attempt1).2, 1)
  else if (attemptOutcome env.attempt2).1 then ((attemptOutcome env.attempt2).2, 2)
  else ((attemptOutcome env.attempt3).2, 3)

/-- errTexts.some(e => /address/i.test(e)) after the first Continue. -/
def mentionsAddress (texts : List String) : Bool :=
  texts.any (fun e => containsJs (upperJs e.data) "ADDRESS".data)

/-- Events of one quote-wait iteration after a timeout: on a detected
system error with the back-to-form action visible the back click
happens, and when the Continue button is then visible the form is
re-submitted. -/
def quoteIterEvents (it : QuoteIterEnv) : List ScrapeEv :=
  if it.systemError && it.backVisible then
    if it.retryVisible then [.backToForm, .resubmit] else [.backToForm]
  else []

/-- The quote-wait loop: at most two iterations, each first waiting for
a dollar amount (loop breaks when it appears) and otherwise running the
system-error recovery of quoteIterEvents. -/
def quotePhase (env : ScrapeEnv) : List ScrapeEv :=
  if env.quoteIter1.quoteAppears then [.waitQuote]
  else if env.quoteIter2.quoteAppears then
    [.waitQuote] ++ quoteIterEvents env.quoteIter1 ++ [.waitQuote]
  else
    [.waitQuote] ++ quoteIterEvents env.quoteIter1
      ++ [.waitQuote] ++ quoteIterEvents env.quoteIter2

/-- errors.filter(e => e.trim()).join(", ") of the validation-error texts. -/
def joinErrors (texts : List String) : String :=
  String.intercalate ", " (texts.filter (fun e => trimJs e.data ≠ []))

/-- Step 4 of the flow: premium extraction and the three returns at the
final page (success, validation-error failure, extraction failure). -/
def extractStage (vehicleDesc : String) (e : ExtractEnv) : RacvQuoteResult :=
  let p := extractPremiums e
  if jsTruthy p.annual || jsTruthy p.monthly then
    { success := true
      vehicle_description := some vehicleDesc
      annual_premium := p.annual
      monthly_premium := p.monthly
      excess_amount := p.excess
      raw_amounts := some e.amounts
      screenshot_path := some "/tmp/racv-quote-result.png" }
  else if e.errorTexts ≠ [] then
    { success := false
      vehicle_description := some vehicleDesc
      error := some ("Form validation errors: " ++ joinErrors e.errorTexts)
      step_reached := some "about_you"
      raw_amounts := some e.amounts
      screenshot_path := some "/tmp/racv-quote-result.png" }
  else
    { success := false
      vehicle_description := some vehicleDesc
      error := some "Reached the end of the form but could not extract a premium. The page may require additional steps."
      step_reached := some "quote_result"
      raw_amounts := some e.amounts
      screenshot_path := some "/tmp/racv-quote-result.png" }

/-- The early return taken when no vehicle was confirmed after the
lookup attempts. -/
def regoNotFoundResult (rego : String) : RacvQuoteResult :=
  { success := false
    error := some ("Could not find a vehicle with registration " ++ rego
      ++ " after multiple attempts. RACV\x27s lookup service may be temporarily unavailable.")
    step_reached := some "rego_lookup"
    screenshot_path := some "/tmp/racv-not-found.png" }

/-- The early return taken when an address-related error is visible
after submitting the car-details step. -/
def addressErrorResult (vehicleDesc : String) : RacvQuoteResult :=
  { success := false
    vehicle_description := some vehicleDesc
    error := some "Could not validate the address. Please provide a valid Victorian street address."
    step_reached := some "your_car" }

/-- The catch-block return for an unexpected fault. -/
def scraperErrorResult (msg : String) : RacvQuoteResult :=
  { success := false
    error := some ("Scraper error: " ++ msg)
    screenshot_path := some "/tmp/racv-error.png" }

/-- Outcome of the try block: a returned result or a raised exception. -/
inductive BodyOut
  | returned (r : RacvQuoteResult)
  | threw
deriving DecidableEq, Repr

/-- The try block of scrapeRacvQuote: browser acquisition, context and
page creation, navigation, the lookup loop, the car-details step with
its address-error check, the about-you step, the quote-wait loop and
the extraction stage.  Returns the outcome, the events of the try
block, and whether the page and the context variables are non-null. -/
def bodyRun (env : ScrapeEnv) (inp : RacvQuoteInput) :
    BodyOut × List ScrapeEv × Bool × Bool :=
  if env.fault = some .getBrowserCall then (.threw, [], false, false)
  else if env.fault = some .newContext then (.threw, [], false, false)
  else if env.fault = some .newPage then (.threw, [.openContext], false, true)
  else if env.fault = some .navigate then (.threw, [.openContext, .openPage], true, true)
  else if env.fault = some .regoLookup then (.threw, [.openContext, .openPage], true, true)
  else
    let evs := [ScrapeEv.openContext, ScrapeEv.openPage]
      ++ List.replicate (lookupLoop env).2 ScrapeEv.lookupAttempt
    if (lookupLoop env).1 = "" then
      (.returned (regoNotFoundResult inp.rego), evs, true, true)
    else if env.fault = some .carDetails then (.threw, evs, true, true)
    else if mentionsAddress env.addressErrorTexts then
      (.returned (addressErrorResult (lookupLoop env).1), evs, true, true)
    else if env.fault = some .aboutYou then (.threw, evs, true, true)
    else if env.fault = some .quoteWait then (.threw, evs, true, true)
    else if env.fault = some .extract then (.threw, evs ++ quotePhase env, true, true)
    else (.returned (extractStage (lookupLoop env).1 env.extractEnv),
      evs ++ quotePhase env, true, true)

/-- scrapeRacvQuote: the try block, the catch block converting any
unexpected fault into a structured result, and the finally block
closing the page and the context whenever they were opened. -/
def scrapeRacvQuote (env : ScrapeEnv) (inp : RacvQuoteInput) :
    RacvQuoteResult × List ScrapeEv :=
  let b := bodyRun env inp
  let r := match b.1 with
    | .returned r => r
    | .threw => scraperErrorResult env.faultMsg
  (r, b.2.1 ++ (if b.2.2.1 then [ScrapeEv.closePage] else [])
    ++ (if b.2.2.2 then [ScrapeEv.closeContext] else []))

/-! ## The get_motor_quote tool handler (get-motor-quote.ts)

The handler first computes the mock quote via calculateQuote, then,
when the live scraper is enabled, attempts scrapeRacvQuote (the
manual-mode scraper) and overrides the premium fields on a successful
scrape with a truthy annual premium.  calculateQuote itself reads
data files external to the scraping core, so its output is taken as an
arbitrary baseline QuoteResult here; the fields the override never
touches are bundled into the `rest` component. -/

structure RacvScraperResult where
  success : Bool
  annual_premium : Option ℚ := none
  monthly_premium : Option ℚ := none
deriving DecidableEq, Repr

structure PremiumRange where
  min : ℤ
  max : ℤ
deriving DecidableEq, Repr

structure ExcessChoice where
  amount : ℤ
  label : String
  annual_premium : ℤ
  monthly_premium : ℤ
deriving DecidableEq, Repr

structure QuoteResult where
  premium_range_annual : PremiumRange
  premium_range_monthly : PremiumRange
  excess_options : List ExcessChoice
  rest : Nat
deriving DecidableEq, Repr

/-- Math.round for the non-negative finite amounts at hand. -/
def jsRound (q : ℚ) : ℤ := ⌊q + 1/2⌋

/-- The discounts array [0, 0.03, 0.07, 0.12] indexed per excess
option; calculateQuote always yields exactly four excess options, so
the index stays in range. -/
def excessDiscounts : List ℚ := [0, 3/100, 7/100, 12/100]

/-- The successful-scrape override block of the handler: spread 0.05
around the scraped annual premium, monthly premium taken from the
scrape when truthy and otherwise derived as round((annual/12)*1.05),
and the excess options repriced from the real annual premium. -/
def overrideWithLiveQuote (quote : QuoteResult) (realAnnual : ℚ)
    (scrapedMonthly : Option ℚ) : QuoteResult :=
  let spread : ℚ := 5/100
  let realMonthly : ℚ :=
    if jsTruthy scrapedMonthly then scrapedMonthly.getD 0
    else ((jsRound (realAnnual / 12 * (105/100)) : ℤ) : ℚ)
  { quote with
    premium_range_annual :=
      { min := jsRound (realAnnual * (1 - spread))
        max := jsRound (realAnnual * (1 + spread)) }
    premium_range_monthly :=
      { min := jsRound (realMonthly * (1 - spread))
        max := jsRound (realMonthly * (1 + spread)) }
    excess_options := quote.excess_options.enum.map (fun p =>
      { p.2 with
        annual_premium := jsRound (realAnnual * (1 - (excessDiscounts.getD p.1 0)))
        monthly_premium :=
          jsRound (((jsRound (realAnnual * (1 - (excessDiscounts.getD p.1 0))) : ℤ) : ℚ)
            / 12 * (105/100)) }) }

/-- The get_motor_quote handler core: quote := calculateQuote(input) is
the baseline; when RACV_LIVE_QUOTES is enabled, scrapeOutcome is the
outcome of the awaited scrapeRacvQuote call (none when it threw); the
premiums are overridden only when the scrape succeeded with a truthy
annual premium. -/
def getMotorQuoteHandler (useLiveScraper : Bool) (quote : QuoteResult)
    (scrapeOutcome : Option RacvScraperResult) : QuoteResult :=
  if useLiveScraper then
    match scrapeOutcome with
    | none => quote
    | some scraped =>
      if scraped.success && jsTruthy scraped.annual_premium then
        overrideWithLiveQuote quote (scraped.annual_premium.getD 0) scraped.monthly_premium
      else quote
  else quote

/-- The handler guard exactly as the claim words it: the baseline is
kept when the scraper is disabled, threw, failed, or returned no set
annual premium; any set annual premium (zero included) triggers the
override, with the monthly premium derived only when none was
supplied. -/
def getMotorQuoteClaimSpec (useLiveScraper : Bool) (quote : QuoteResult)
    (scrapeOutcome : Option RacvScraperResult) : QuoteResult :=
  if useLiveScraper then
    match scrapeOutcome with
    | none => quote
    | some scraped =>
      if scraped.success && scraped.annual_premium.isSome then
        let a := scraped.annual_premium.getD 0
        let m : ℚ := match scraped.monthly_premium with
          | some v => v
          | none => ((jsRound (a / 12 * (105/100)) : ℤ) : ℚ)
        { quote with
          premium_range_annual :=
            { min := jsRound (a * (95/100)), max := jsRound (a * (105/100)) }
          premium_range_monthly :=
            { min := jsRound (m * (95/100)), max := jsRound (m * (105/100)) } }
      else quote
  else quote

/-! ## Helper lemmas -/

theorem data_ne_nil_append (a b : String) (h : a.data ≠ []) : (a ++ b).data ≠ [] := by
  rw [String.data_append]
  intro hc
  exact h (List.append_eq_nil.mp hc).1

theorem ne_empty_of_data_ne_nil (a : String) (h : a.data ≠ []) : a ≠ "" := by
  intro he
  rw [he] at h
  exact h rfl

theorem jsTruthy_isSome (o : Option ℚ) (h : jsTruthy o = true) : o.isSome = true := by
  cases o <;> simp_all [jsTruthy]

theorem selectMatchingOption_some (pred : String → Bool) (options : List String) (o : String)
    (h : selectMatchingOption pred options = some o) :
    pred o = true ∧ o.data ≠ [] ∧ trimJs o.data ≠ [] := by
  unfold selectMatchingOption at h
  cases hf : options.find? pred with
  | none => rw [hf] at h; exact absurd h (by simp)
  | some o2 =>
    rw [hf] at h
    dsimp only at h
    by_cases hg : o2.data ≠ [] ∧ trimJs o2.data ≠ []
    · rw [if_pos hg] at h
      cases h
      exact ⟨List.find?_some hf, hg.1, hg.2⟩
    · rw [if_neg hg] at h
      exact absurd h (by simp)

/-! ## C8: the shared browser engine handle -/

/-- C8: the browser resource holds at most one live engine instance:
getBrowser returns the held instance whenever it is present and
connected, launches and stores the fresh instance exactly when the
held one is absent or disconnected, and closeBrowser closes the held
instance precisely when one is held and always resets the handle to
absent. -/
theorem getBrowser_singleton (held : Option BrowserInst) (freshLaunch b : BrowserInst) :
    (held = some b → b.connected = true → getBrowser held freshLaunch = (b, some b))
  ∧ ((held = none ∨ (held = some b ∧ b.connected = false)) →
      getBrowser held freshLaunch = (freshLaunch, some freshLaunch))
  ∧ (closeBrowser held).1 = none
  ∧ ((closeBrowser held).2 = true ↔ held ≠ none) := by
  refine ⟨?_, ?_, ?_, ?_⟩
  · intro h hc
    subst h
    simp [getBrowser, hc]
  · rintro (h | ⟨h, hc⟩)
    · subst h; rfl
    · subst h; simp [getBrowser, hc]
  · cases held <;> rfl
  · cases held <;> simp [closeBrowser]

/-- Witness for C8 at a connected held instance and at an absent one. -/
theorem getBrowser_singleton_witness :
    getBrowser (some ⟨1, true⟩) ⟨2, true⟩ = (⟨1, true⟩, some ⟨1, true⟩)
  ∧ getBrowser none ⟨2, true⟩ = (⟨2, true⟩, some ⟨2, true⟩) :=
  ⟨(getBrowser_singleton (some ⟨1, true⟩) ⟨2, true⟩ ⟨1, true⟩).1 rfl rfl,
   (getBrowser_singleton none ⟨2, true⟩ ⟨1, true⟩).2.1 (Or.inl rfl)⟩

/-! ## C10: the coverage handler is total on the enum -/

/-- C10: for every coverage_area in the five-element enum the handler
finds the area in coverageData and answers through the normal branch,
returning the text rendering together with the structured content
carrying the area key, its title and its non-empty details list; the
not-found branch is never taken for enum-valid inputs. -/
theorem getCoverageDetails_enum_total (a : CoverageArea) :
    ∃ info, coverageLookup (areaKey a) = some info
      ∧ getCoverageDetails a = .ok (renderCoverageText info)
          { area := areaKey a, title := info.title, details := info.details }
      ∧ info.details ≠ [] := by
  cases a <;> exact ⟨_, rfl, rfl, by decide⟩

/-! ## C5: manual fallback option matching -/

/-- The manual-fallback option chosen for the record string "BMW X5"
out of the single-option list [" X5 "]: the code selects it, because
the record contains the whitespace-trimmed option text, yet the
claimed untrimmed either-direction containment criterion rejects it. -/
theorem fallback_match_trim_counterexample :
    selectMatchingOption (fun o => fallbackOptionPred "BMW X5" o) [" X5 "] = some " X5 "
  ∧ specEitherWayMatch "BMW X5" " X5 " = false := by
  exact ⟨by decide, by decide⟩

/-- C5 (amended): any option the manual fallback selects for a
make/model field or for the body-type field matches the captured
record case-insensitively by substring containment in either
direction, with the option text whitespace-trimmed on the
record-contains-option direction, and the selected option is never
blank. -/
theorem fallback_selection_matches (record : String) (options : List String) (o : String)
    (h : selectMatchingOption (fun t => fallbackOptionPred record t) options = some o
       ∨ selectMatchingOption (fun t => fallbackBodyPred record t) options = some o) :
    (containsJs (upperJs o.data) (upperJs record.data) = true
      ∨ containsJs (upperJs record.data) (trimJs (upperJs o.data)) = true)
  ∧ trimJs o.data ≠ [] := by
  rcases h with h | h
  · obtain ⟨hp, -, ht⟩ := selectMatchingOption_some _ _ _ h
    refine ⟨?_, ht⟩
    rcases Bool.or_eq_true_iff.mp hp with h1 | h1
    · exact Or.inl h1
    · exact Or.inr h1
  · obtain ⟨hp, -, ht⟩ := selectMatchingOption_some _ _ _ h
    refine ⟨?_, ht⟩
    rcases Bool.or_eq_true_iff.mp hp with h1 | h1
    · exact Or.inl (containsJs_of_trim _ _ h1)
    · exact Or.inr h1

/-- Witness for C5 (amended), applied to the trimmed-match selection. -/
theorem fallback_selection_matches_witness :
    (containsJs (upperJs " X5 ".data) (upperJs "BMW X5".data) = true
      ∨ containsJs (upperJs "BMW X5".data) (trimJs (upperJs " X5 ".data)) = true)
  ∧ trimJs " X5 ".data ≠ [] :=
  fallback_selection_matches "BMW X5" [" X5 "] " X5 " (Or.inl (by decide))

/-! ## C3: extraction rule priority -/

/-- A final-page observation on which the annual period-marker pattern
(rule 1) and the annual label pattern (rule 2) both match, with
different amounts. -/
def envExtractOrder : ExtractEnv :=
  { annualMarkerMatch := some 1000
    annualLabelMatch := some 2000
    monthlyMarkerMatch := none
    monthlyLabelMatch := none
    amounts := []
    errorTexts := [] }

/-- Counterexample to C3: when rules 1 and 2 both match the annual
amount, the code keeps the amount of the later label rule (2000), not
the first matching rule's amount (1000) that the claimed priority
order would fix. -/
theorem extract_priority_counterexample :
    (extractPremiums envExtractOrder).annual = some 2000
  ∧ (extractPremiumsSpecFirstWins envExtractOrder).annual = some 1000 := by
  exact ⟨by decide, by decide⟩

/-- C3 (amended): premium extraction equals the rule order in which,
for each of annual and monthly, the LAST matching pattern of the fixed
list wins (the labelled pattern overrides the period-marker pattern),
and the range fallback (first amount in 300..8000 as annual, first in
25..<300 as monthly, first fixed excess tier as excess) runs exactly
when neither category carries a nonzero amount after the pattern
loop. -/
theorem extractPremiums_last_match_wins (e : ExtractEnv) :
    extractPremiums e = extractPremiumsSpecLastWins e := by
  rcases e with ⟨am, al, mm, ml, amts, errs⟩
  cases am <;> cases al <;> cases mm <;> cases ml <;> rfl

/-! ## Sample inputs and environments for concrete evaluations -/

def inpSample : RacvQuoteInput :=
  { rego := "ABC123"
    address := "80 Bourke Street Melbourne"
    driver_age := 35
    driver_gender := .male
    licence_age := 18
    claims_last_5_years := 0 }

/-- An attempt on which nothing useful is observed. -/
def quietAttempt : AttemptEnv :=
  { addressFieldVisible := false
    carMatch := none
    headingMatch := none
    notFoundMsg := false
    captured := none
    manualAddressField := false
    manualVariantHeading := none }

/-- An attempt confirmed directly by the address field plus body-text match. -/
def foundAttempt : AttemptEnv :=
  { quietAttempt with
    addressFieldVisible := true
    carMatch := some "2012 TOYOTA COROLLA" }

/-- A quote-wait iteration on which the dollar amount appears. -/
def calmIter : QuoteIterEnv :=
  { quoteAppears := true, systemError := false, backVisible := false, retryVisible := false }

/-- A quote-wait iteration that times out on a system error with both
the back-to-form action and the Continue button available. -/
def failIter : QuoteIterEnv :=
  { quoteAppears := false, systemError := true, backVisible := true, retryVisible := true }

/-- A final page with no pattern match, no amounts and no error texts. -/
def emptyExtract : ExtractEnv :=
  { annualMarkerMatch := none
    annualLabelMatch := none
    monthlyMarkerMatch := none
    monthlyLabelMatch := none
    amounts := []
    errorTexts := [] }

/-- A fault-free environment on which the vehicle is never confirmed. -/
def envAllQuiet : ScrapeEnv :=
  { fault := none
    faultMsg := ""
    attempt1 := quietAttempt
    attempt2 := quietAttempt
    attempt3 := quietAttempt
    addressErrorTexts := []
    quoteIter1 := calmIter
    quoteIter2 := calmIter
    extractEnv := emptyExtract }

/-! ## Trace counting helpers -/

theorem quoteIterEvents_count_other (it : QuoteIterEnv) (c : ScrapeEv)
    (h1 : c ≠ ScrapeEv.backToForm) (h2 : c ≠ ScrapeEv.resubmit) :
    (quoteIterEvents it).count c = 0 := by
  unfold quoteIterEvents
  split_ifs <;>
    simp [List.count_cons, List.count_nil, Ne.symm h1, Ne.symm h2]

theorem quotePhase_count_other (env : ScrapeEnv) (c : ScrapeEv)
    (h1 : c ≠ ScrapeEv.backToForm) (h2 : c ≠ ScrapeEv.resubmit)
    (h3 : c ≠ ScrapeEv.waitQuote) :
    (quotePhase env).count c = 0 := by
  unfold quotePhase
  split_ifs <;>
    simp [List.count_append, quoteIterEvents_count_other _ _ h1 h2,
      List.count_cons, List.count_nil, Ne.symm h3]

theorem quoteIterEvents_count_resubmit_le_one (it : QuoteIterEnv) :
    (quoteIterEvents it).count ScrapeEv.resubmit ≤ 1 := by
  unfold quoteIterEvents
  split_ifs <;> decide

theorem quotePhase_count_resubmit_le_two (env : ScrapeEnv) :
    (quotePhase env).count ScrapeEv.resubmit ≤ 2 := by
  have g1 := quoteIterEvents_count_resubmit_le_one env.quoteIter1
  have g2 := quoteIterEvents_count_resubmit_le_one env.quoteIter2
  unfold quotePhase
  split_ifs <;>
    simp [List.count_append, List.count_cons, List.count_nil] <;> omega

theorem quotePhase_count_wait_le_two (env : ScrapeEnv) :
    (quotePhase env).count ScrapeEv.waitQuote ≤ 2 := by
  have g1 := quoteIterEvents_count_other env.quoteIter1 ScrapeEv.waitQuote
    (by simp) (by simp)
  have g2 := quoteIterEvents_count_other env.quoteIter2 ScrapeEv.waitQuote
    (by simp) (by simp)
  unfold quotePhase
  split_ifs <;>
    simp [List.count_append, List.count_cons, List.count_nil, g1, g2]

theorem lookupLoop_snd_le_three (env : ScrapeEnv) : (lookupLoop env).2 ≤ 3 := by
  unfold lookupLoop
  split_ifs <;> simp

/-- Master lemma for the event trace: counts of the resource and
recovery events on every exit path of scrapeRacvQuote. -/
theorem scrape_trace_counts (env : ScrapeEnv) (inp : RacvQuoteInput) :
    ((scrapeRacvQuote env inp).2.count ScrapeEv.closePage
      = (scrapeRacvQuote env inp).2.count ScrapeEv.openPage)
  ∧ ((scrapeRacvQuote env inp).2.count ScrapeEv.closeContext
      = (scrapeRacvQuote env inp).2.count ScrapeEv.openContext)
  ∧ (scrapeRacvQuote env inp).2.count ScrapeEv.resubmit ≤ 2
  ∧ (scrapeRacvQuote env inp).2.count ScrapeEv.waitQuote ≤ 2
  ∧ (scrapeRacvQuote env inp).2.count ScrapeEv.lookupAttempt ≤ 3 := by
  have hr := quotePhase_count_resubmit_le_two env
  have hw := quotePhase_count_wait_le_two env
  have hn := lookupLoop_snd_le_three env
  have hcp := quotePhase_count_other env ScrapeEv.closePage (by simp) (by simp) (by simp)
  have hop := quotePhase_count_other env ScrapeEv.openPage (by simp) (by simp) (by simp)
  have hcc := quotePhase_count_other env ScrapeEv.closeContext (by simp) (by simp) (by simp)
  have hoc := quotePhase_count_other env ScrapeEv.openContext (by simp) (by simp) (by simp)
  have hla := quotePhase_count_other env ScrapeEv.lookupAttempt (by simp) (by simp) (by simp)
  cases henv : env.fault with
  | none =>
    by_cases hdesc : (lookupLoop env).1 = "" <;>
    by_cases haddr : mentionsAddress env.addressErrorTexts = true <;>
      simp [scrapeRacvQuote, bodyRun, henv, hdesc, haddr, List.count_append,
        List.count_cons, List.count_nil, List.count_replicate, hr, hw, hcp, hop,
        hcc, hoc, hla] <;>
      omega
  | some fp =>
    cases fp <;>
    by_cases hdesc : (lookupLoop env).1 = "" <;>
    by_cases haddr : mentionsAddress env.addressErrorTexts = true <;>
      simp [scrapeRacvQuote, bodyRun, henv, hdesc, haddr, List.count_append,
        List.count_cons, List.count_nil, List.count_replicate, hr, hw, hcp, hop,
        hcc, hoc, hla] <;>
      omega

/-- Master lemma for the returned result: every exit of scrapeRacvQuote
is the catch-block result, the rego-lookup failure, the address
validation failure, or an extraction-stage result. -/
theorem scrape_result_cases (env : ScrapeEnv) (inp : RacvQuoteInput) :
    (scrapeRacvQuote env inp).1 = scraperErrorResult env.faultMsg
  ∨ (scrapeRacvQuote env inp).1 = regoNotFoundResult inp.rego
  ∨ (scrapeRacvQuote env inp).1 = addressErrorResult (lookupLoop env).1
  ∨ (scrapeRacvQuote env inp).1 = extractStage (lookupLoop env).1 env.extractEnv := by
  cases henv : env.fault with
  | none =>
    by_cases hdesc : (lookupLoop env).1 = "" <;>
    by_cases haddr : mentionsAddress env.addressErrorTexts = true <;>
      simp [scrapeRacvQuote, bodyRun, henv, hdesc, haddr]
  | some fp =>
    cases fp <;>
    by_cases hdesc : (lookupLoop env).1 = "" <;>
    by_cases haddr : mentionsAddress env.addressErrorTexts = true <;>
      simp [scrapeRacvQuote, bodyRun, henv, hdesc, haddr]

/-- On a fault-free call with a confirmed vehicle and no address error,
the result is the extraction-stage result. -/
theorem scrape_result_extract (env : ScrapeEnv) (inp : RacvQuoteInput)
    (hf : env.fault = none) (hdesc : (lookupLoop env).1 ≠ "")
    (haddr : mentionsAddress env.addressErrorTexts = false) :
    (scrapeRacvQuote env inp).1 = extractStage (lookupLoop env).1 env.extractEnv := by
  simp [scrapeRacvQuote, bodyRun, hf, hdesc, haddr]

theorem extractStage_raw_amounts (d : String) (e : ExtractEnv) :
    (extractStage d e).raw_amounts = some e.amounts := by
  simp only [extractStage]
  split_ifs <;> rfl

/-! ## C7: the session context and page are always released -/

/-- C7: on every exit path of scrapeRacvQuote — normal completion,
every handled-failure return and the unexpected-fault path — the trace
holds exactly as many page-close events as page-open events and
exactly as many context-close events as context-open events: whatever
was opened is closed before the call returns, and nothing is closed
that was never opened. -/
theorem scrape_closes_page_and_context (env : ScrapeEnv) (inp : RacvQuoteInput) :
    ((scrapeRacvQuote env inp).2.count ScrapeEv.closePage
      = (scrapeRacvQuote env inp).2.count ScrapeEv.openPage)
  ∧ ((scrapeRacvQuote env inp).2.count ScrapeEv.closeContext
      = (scrapeRacvQuote env inp).2.count ScrapeEv.openContext) :=
  ⟨(scrape_trace_counts env inp).1, (scrape_trace_counts env inp).2.1⟩

/-! ## C2: backend-error recovery cycles -/

/-- A call on which the vehicle is confirmed at once and both
quote-wait iterations hit the transient system error with the
back-to-form action and the Continue button available. -/
def envDoubleRecovery : ScrapeEnv :=
  { envAllQuiet with
    attempt1 := foundAttempt
    quoteIter1 := failIter
    quoteIter2 := failIter }

/-- Counterexample to C2: when the system error recurs after the first
recovery, the second quote-wait iteration performs the back-to-form
click and re-submission again, so two full recovery cycles are
executed in one call, not at most one. -/
theorem recovery_cycle_twice_counterexample :
    (scrapeRacvQuote envDoubleRecovery inpSample).2.count ScrapeEv.resubmit = 2 := by
  decide

/-- C2 (amended): the quote-wait loop runs at most two iterations, so
at most two backend-error recovery cycles (back-to-form plus
re-submission) and at most two waits for the quote are performed per
call; a recovery in the second iteration is followed by extraction,
not by a further wait for the quote. -/
theorem recovery_cycle_count_le_two (env : ScrapeEnv) (inp : RacvQuoteInput) :
    (scrapeRacvQuote env inp).2.count ScrapeEv.resubmit ≤ 2
  ∧ (scrapeRacvQuote env inp).2.count ScrapeEv.waitQuote ≤ 2 :=
  ⟨(scrape_trace_counts env inp).2.2.1, (scrape_trace_counts env inp).2.2.2.1⟩

/-! ## C4: bounded vehicle-resolution attempts and the rego_lookup failure -/

theorem attemptOutcome_false_desc (a : AttemptEnv)
    (h : (attemptOutcome a).1 = false) : (attemptOutcome a).2 = "" := by
  rcases a with ⟨afv, cm, hm, nfm, cap, maf, mvh⟩
  cases afv <;> cases cm <;> cases hm <;> cases nfm <;> cases cap <;>
    cases maf <;> cases mvh <;> simp_all [attemptOutcome]

/-- C4: the vehicle-resolution sequence is attempted at most 3 times,
and on a fault-free call on which no attempt confirms a vehicle the
call returns success = false with step_reached rego_lookup, the
not-found error message naming the registration, and the diagnostic
screenshot reference. -/
theorem rego_lookup_retry_and_failure (env : ScrapeEnv) (inp : RacvQuoteInput) :
    (scrapeRacvQuote env inp).2.count ScrapeEv.lookupAttempt ≤ 3
  ∧ (env.fault = none →
      (attemptOutcome env.attempt1).1 = false →
      (attemptOutcome env.attempt2).1 = false →
      (attemptOutcome env.attempt3).1 = false →
      (scrapeRacvQuote env inp).1 = regoNotFoundResult inp.rego) := by
  refine ⟨(scrape_trace_counts env inp).2.2.2.2, ?_⟩
  intro hf h1 h2 h3
  have hl : lookupLoop env = ("", 3) := by
    simp [lookupLoop, h1, h2, attemptOutcome_false_desc _ h3]
  simp [scrapeRacvQuote, bodyRun, hf, hl]

/-- Witness for C4 on the environment on which every attempt fails. -/
theorem rego_lookup_retry_and_failure_witness :
    (scrapeRacvQuote envAllQuiet inpSample).1 = regoNotFoundResult inpSample.rego :=
  (rego_lookup_retry_and_failure envAllQuiet inpSample).2 rfl (by decide) (by decide)
    (by decide)

/-! ## C1: result invariants of scrapeRacvQuote -/

/-- A call on which the browser engine acquisition raises. -/
def envFaulted : ScrapeEnv :=
  { envAllQuiet with
    fault := some .getBrowserCall
    faultMsg := "browser crashed" }

/-- Counterexample to C1: on the unexpected-fault exit path the result
has success = false and a non-empty error, but step_reached is absent:
the catch-block return sets no step_reached at all. -/
theorem scrape_catch_missing_step_counterexample :
    (scrapeRacvQuote envFaulted inpSample).1.success = false
  ∧ (scrapeRacvQuote envFaulted inpSample).1.error.isSome = true
  ∧ (scrapeRacvQuote envFaulted inpSample).1.step_reached = none := by
  exact ⟨by decide, by decide, by decide⟩

/-- C1 (amended): success = true implies at least one of
annual_premium / monthly_premium is set; success = false implies a set
non-empty error, and whenever step_reached is absent on a failure the
result is the catch-block result, whose error carries the
Scraper error: prefix — on every handled-failure path step_reached is
set. -/
theorem scrape_result_invariants (env : ScrapeEnv) (inp : RacvQuoteInput) :
    ((scrapeRacvQuote env inp).1.success = true →
      ((scrapeRacvQuote env inp).1.annual_premium.isSome = true
        ∨ (scrapeRacvQuote env inp).1.monthly_premium.isSome = true))
  ∧ ((scrapeRacvQuote env inp).1.success = false →
      (scrapeRacvQuote env inp).1.error.getD "" ≠ ""
      ∧ ((scrapeRacvQuote env inp).1.step_reached = none →
        ∃ m, (scrapeRacvQuote env inp).1.error = some ("Scraper error: " ++ m))) := by
  rcases scrape_result_cases env inp with h | h | h | h <;> rw [h]
  · refine ⟨by simp [scraperErrorResult], ?_⟩
    intro _
    refine ⟨?_, ?_⟩
    · exact ne_empty_of_data_ne_nil _
        (data_ne_nil_append "Scraper error: " _ (by decide))
    · intro _
      exact ⟨env.faultMsg, rfl⟩
  · refine ⟨by simp [regoNotFoundResult], ?_⟩
    intro _
    refine ⟨?_, ?_⟩
    · exact ne_empty_of_data_ne_nil _
        (data_ne_nil_append _ _
          (data_ne_nil_append "Could not find a vehicle with registration " inp.rego
            (by decide)))
    · intro hstep
      simp [regoNotFoundResult] at hstep
  · refine ⟨by simp [addressErrorResult], ?_⟩
    intro _
    refine ⟨?_, ?_⟩
    · show (some "Could not validate the address. Please provide a valid Victorian street address." : Option String).getD "" ≠ ""
      decide
    · intro hstep
      simp [addressErrorResult] at hstep
  · simp only [extractStage]
    split_ifs with hcond herr
    · refine ⟨?_, by simp⟩
      intro _
      rcases Bool.or_eq_true_iff.mp hcond with hA | hM
      · exact Or.inl (jsTruthy_isSome _ hA)
      · exact Or.inr (jsTruthy_isSome _ hM)
    · refine ⟨by simp, ?_⟩
      intro _
      refine ⟨?_, ?_⟩
      · exact ne_empty_of_data_ne_nil _
          (data_ne_nil_append "Form validation errors: " _ (by decide))
      · intro hstep
        simp at hstep
    · refine ⟨by simp, ?_⟩
      intro _
      refine ⟨?_, ?_⟩
      · show (some "Reached the end of the form but could not extract a premium. The page may require additional steps." : Option String).getD "" ≠ ""
        decide
      · intro hstep
        simp at hstep

/-- Witness for C1 (amended) on a failing fault-free call. -/
theorem scrape_result_invariants_witness :
    (scrapeRacvQuote envAllQuiet inpSample).1.error.getD "" ≠ "" :=
  ((scrape_result_invariants envAllQuiet inpSample).2 (by decide)).1

/-! ## C6: raw_amounts at the extraction stage -/

/-- A fault-free call that reaches extraction over a final page with
no currency amounts at all. -/
def envFinalEmpty : ScrapeEnv :=
  { envAllQuiet with
    attempt1 := foundAttempt }

/-- Counterexample to C6: the extraction stage is reached (the result
carries step_reached quote_result) yet raw_amounts is the empty list —
set, but not non-empty. -/
theorem raw_amounts_empty_counterexample :
    (scrapeRacvQuote envFinalEmpty inpSample).1.step_reached = some "quote_result"
  ∧ (scrapeRacvQuote envFinalEmpty inpSample).1.raw_amounts = some [] := by
  exact ⟨by decide, by decide⟩

/-- C6 (amended): whenever the extraction stage is reached (fault-free
call, vehicle confirmed, no address validation error), the result sets
raw_amounts to exactly the page's amount list — on the success, the
validation-error and the extraction-failure exits alike — though that
list may be empty when the page shows no currency amounts. -/
theorem final_stage_raw_amounts_set (env : ScrapeEnv) (inp : RacvQuoteInput)
    (hf : env.fault = none) (hdesc : (lookupLoop env).1 ≠ "")
    (haddr : mentionsAddress env.addressErrorTexts = false) :
    (scrapeRacvQuote env inp).1.raw_amounts = some env.extractEnv.amounts := by
  rw [scrape_result_extract env inp hf hdesc haddr]
  exact extractStage_raw_amounts _ _

/-- A fault-free extraction-stage call with one amount on the page. -/
def envFinalAmounts : ScrapeEnv :=
  { envFinalEmpty with
    extractEnv := { emptyExtract with amounts := [1234] } }

/-- Witness for C6 (amended). -/
theorem final_stage_raw_amounts_set_witness :
    (scrapeRacvQuote envFinalAmounts inpSample).1.raw_amounts
      = some envFinalAmounts.extractEnv.amounts :=
  final_stage_raw_amounts_set envFinalAmounts inpSample rfl (by decide) (by decide)

/-! ## C9: live-scrape override in the get_motor_quote handler -/

def baselineQuoteSample : QuoteResult :=
  { premium_range_annual := { min := 100, max := 200 }
    premium_range_monthly := { min := 10, max := 20 }
    excess_options := []
    rest := 7 }

/-- Counterexample to C9: a successful scrape whose annual premium is
present but zero.  The handler guard tests JavaScript truthiness, so
the mock quote is kept unchanged, while the claimed guard (annual
premium merely set) would rebuild the ranges around zero. -/
theorem live_override_truthiness_counterexample :
    getMotorQuoteHandler true baselineQuoteSample
      (some { success := true, annual_premium := some 0 }) = baselineQuoteSample
  ∧ getMotorQuoteClaimSpec true baselineQuoteSample
      (some { success := true, annual_premium := some 0 }) ≠ baselineQuoteSample := by
  refine ⟨rfl, ?_⟩
  intro hc
  have h1 := congrArg (fun q => q.premium_range_annual.min) hc
  simp [getMotorQuoteClaimSpec, baselineQuoteSample, jsRound, jsTruthy] at h1
  norm_num at h1

/-- C9 (amended): the mock quote from calculateQuote is returned
unchanged when the live scraper is disabled, the scrape threw, or the
scrape did not both succeed and carry a truthy (nonzero) annual
premium; otherwise the annual range becomes round(a*0.95)..round(a*1.05)
around the scraped annual premium a, and the monthly range is built the
same way around the scraped monthly premium when truthy and around
round((a/12)*1.05) otherwise, while the fields outside the premium
data stay those of the mock quote. -/
theorem live_quote_override (useLiveScraper : Bool) (quote : QuoteResult)
    (scrapeOutcome : Option RacvScraperResult) :
    ((useLiveScraper = false ∨ scrapeOutcome = none
        ∨ (∃ s, scrapeOutcome = some s ∧ (s.success && jsTruthy s.annual_premium) = false)) →
      getMotorQuoteHandler useLiveScraper quote scrapeOutcome = quote)
  ∧ (∀ s, useLiveScraper = true → scrapeOutcome = some s → s.success = true →
      jsTruthy s.annual_premium = true →
      ((getMotorQuoteHandler useLiveScraper quote scrapeOutcome).premium_range_annual
          = { min := jsRound (s.annual_premium.getD 0 * (95/100))
              max := jsRound (s.annual_premium.getD 0 * (105/100)) }
        ∧ (getMotorQuoteHandler useLiveScraper quote scrapeOutcome).premium_range_monthly
          = { min := jsRound ((if jsTruthy s.monthly_premium then s.monthly_premium.getD 0
                else ((jsRound (s.annual_premium.getD 0 / 12 * (105/100)) : ℤ) : ℚ)) * (95/100))
              max := jsRound ((if jsTruthy s.monthly_premium then s.monthly_premium.getD 0
                else ((jsRound (s.annual_premium.getD 0 / 12 * (105/100)) : ℤ) : ℚ)) * (105/100)) }
        ∧ (getMotorQuoteHandler useLiveScraper quote scrapeOutcome).rest = quote.rest)) := by
  constructor
  · rintro (hf | hn | ⟨s, hs, hguard⟩)
    · simp [getMotorQuoteHandler, hf]
    · simp [getMotorQuoteHandler, hn]
    · simp [getMotorQuoteHandler, hs, hguard]
  · rintro s hl hs hsucc htruthy
    subst hl
    subst hs
    simp only [getMotorQuoteHandler, hsucc, htruthy, Bool.and_self, if_true,
      overrideWithLiveQuote]
    refine ⟨?_, ?_, trivial⟩
    · norm_num
    · norm_num

/-- A successful scrape of 1200 per year with no monthly premium. -/
def scrapedSample : RacvScraperResult :=
  { success := true, annual_premium := some 1200, monthly_premium := none }

/-- Witness for C9 (amended) at scrapedSample. -/
theorem live_quote_override_witness :
    (getMotorQuoteHandler true baselineQuoteSample (some scrapedSample)).premium_range_annual
      = { min := jsRound (scrapedSample.annual_premium.getD 0 * (95/100))
          max := jsRound (scrapedSample.annual_premium.getD 0 * (105/100)) }
  ∧ (getMotorQuoteHandler true baselineQuoteSample (some scrapedSample)).rest
      = baselineQuoteSample.rest :=
  have h := (live_quote_override true baselineQuoteSample (some scrapedSample)).2
    scrapedSample rfl rfl rfl (by decide)
  ⟨h.1, h.2.2⟩
